import Mathlib

/-!
Verification of the `picture-compressor` library (`src/index.js`).

The library exposes `pictureCompress(options)`, which validates the request,
decodes the image asynchronously, reads the EXIF orientation, computes the
target size with `getDistSize`, renders with `compress`, and resolves.

We embed the three functions shallowly:

* JavaScript numbers are modelled as `ℚ`.  The only number operations the
  code performs are comparisons, `+`, `*`, `/`, `Math.min` and `Math.round`,
  which the rational model captures exactly on the inputs the theorems use.
  JS division `d / s` with `s = 0` and `d > 0` yields `+Infinity`; the
  candidate values fed to `Math.min` are therefore modelled in an extended
  type `JsExt` with explicit infinities.
* An omitted option field is modelled as `none : Option _`; JavaScript
  truthiness on the modelled domain is: a string is falsy iff it is empty or
  absent, a number is falsy iff it is `0` or absent.
* The synchronous validation prologue of `pictureCompress` (everything executed
  before `new Image()` is constructed) is modelled by `validate`, which
  either rejects with the exact error-message string of the source or
  proceeds to the decode stage carrying the defaulted fields.
* The canvas calls performed by `compress` are modelled as a `RenderPlan`
  record of the surface size set, the rotation applied (as the coefficient
  of π), and the `drawImage` call issued, if any.
-/

/-- A width/height pair, as used for both `source` and `dist` in
`getDistSize` (JS numbers, modelled as `ℚ`). -/
structure Size where
  width : ℚ
  height : ℚ
deriving DecidableEq, Repr

/-- A JavaScript number that may be `±Infinity`, as produced by division by
zero.  Finite values are rationals. -/
inductive JsExt where
  | negInf : JsExt
  | fin : ℚ → JsExt
  | posInf : JsExt
deriving DecidableEq, Repr

/-- The function `Math.min` on two extended JS numbers (no `NaN` arises in
the modelled code paths). -/
def jsMin : JsExt → JsExt → JsExt
  | .negInf, _ => .negInf
  | _, .negInf => .negInf
  | .posInf, y => y
  | x, .posInf => x
  | .fin a, .fin b => .fin (min a b)

/-- Extract the finite value of a `JsExt`.  The theorems only evaluate it on
finite values (the candidates are capped by `Math.min(…, 1)`, and `negInf`
requires a negative requested dimension together with a zero source
dimension, which no domain of any theorem below contains); the infinite cases return a
junk value. -/
def JsExt.toQ : JsExt → ℚ
  | .fin q => q
  | _ => 0

/-- One scale candidate of `getDistSize`: the JS expression
`d ? d / s : 1`.  A zero (falsy) requested dimension contributes `1`;
otherwise the quotient, with JS semantics `d / 0 = +Infinity` for `d > 0`
and `-Infinity` for `d < 0`. -/
def jsCand (d s : ℚ) : JsExt :=
  if d = 0 then .fin 1
  else if s = 0 then (if 0 < d then .posInf else .negInf)
  else .fin (d / s)

/-- The expression `scale = Math.min(dw ? dw / a : 1, dh ? dh / b : 1, 1)`
from `getDistSize` (`a`, `b` are the source dimensions each requested
dimension is compared against). -/
def scaleFor (dw a dh b : ℚ) : ℚ :=
  (jsMin (jsMin (jsCand dw a) (jsCand dh b)) (JsExt.fin 1)).toQ

/-- The function `Math.round`: round half toward `+∞`, i.e. `⌊x + 1/2⌋`
(exact for every finite JS number). -/
def jsRound (x : ℚ) : ℚ := (⌊x + 1 / 2⌋ : ℚ)

/-- Shallow embedding of `getDistSize(source, dist, fit, orientation)` from
`src/index.js`.  The source computes `scale` before testing
the fill test; since `scale` is unused on the fill path, the fill test is
hoisted into each branch without changing the result. -/
def getDistSize (source dist : Size) (fit : String) (orientation : Int) : Size :=
  if orientation = 6 ∨ orientation = 8 then
    if fit = "fill" then ⟨dist.height, dist.width⟩
    else
      let scale := scaleFor dist.width source.height dist.height source.width
      ⟨jsRound (source.width * scale), jsRound (source.height * scale)⟩
  else
    if fit = "fill" then dist
    else
      let scale := scaleFor dist.width source.width dist.height source.height
      ⟨jsRound (source.width * scale), jsRound (source.height * scale)⟩

/-- The canvas operations performed by `compress(img, width, height, type,
quality, orientation)`: the final surface size, the rotation applied to the
context as a coefficient of π (`0` when `ctx.rotate` is never called), and
the arguments `(dx, dy, dWidth, dHeight)` of the `ctx.drawImage` call, or
`none` when no draw is issued. -/
structure RenderPlan where
  surfaceW : ℚ
  surfaceH : ℚ
  rotatePi : ℚ
  draw : Option (ℚ × ℚ × ℚ × ℚ)
deriving DecidableEq, Repr

/-- Shallow embedding of the canvas manipulation in `compress`.  The guard
`orientation && orientation !== 1` is truthiness on a number: taken iff the
orientation is neither `0` nor `1`.  Inside it, the `switch` handles `6`,
`3` and `8`; its `default` branch only `break`s, issuing no draw call. -/
def renderPlan (width height : ℚ) (orientation : Int) : RenderPlan :=
  if orientation ≠ 0 ∧ orientation ≠ 1 then
    if orientation = 6 then
      ⟨height, width, 1 / 2, some (0, -height, width, height)⟩
    else if orientation = 3 then
      ⟨width, height, 1, some (-width, -height, width, height)⟩
    else if orientation = 8 then
      ⟨height, width, 3 / 2, some (-width, 0, width, height)⟩
    else
      ⟨width, height, 0, none⟩
  else
    ⟨width, height, 0, some (0, 0, width, height)⟩

/-- The request object passed to `pictureCompress`.  `none` models an
omitted field (`undefined`). -/
structure Options where
  img : Option String
  width : Option ℚ
  height : Option ℚ
  type : Option String
  quality : Option ℚ
  fit : Option String
deriving DecidableEq, Repr

/-- JS truthiness test `!x` for an optional string: true iff absent or
empty. -/
def jsFalsyStr : Option String → Bool
  | none => true
  | some s => s = ""

/-- The expression `x || d` for an optional string: the default when absent
or empty. -/
def effStr (v : Option String) (d : String) : String :=
  match v with
  | none => d
  | some s => if s = "" then d else s

/-- The expression `options.quality || 0.92`: an absent quality or `0`
(both falsy) falls back to the default. -/
def effQuality (v : Option ℚ) : ℚ :=
  match v with
  | none => 0.92
  | some q => if q = 0 then 0.92 else q

/-- The dimension check `width < 0 || height < 0 || width + height <= 0`
with JS semantics for absent operands: any comparison involving
`undefined` evaluates on `NaN` and is false. -/
def dimsInvalid (w h : Option ℚ) : Bool :=
  (match w with | some x => decide (x < 0) | none => false) ||
  (match h with | some x => decide (x < 0) | none => false) ||
  (match w, h with | some x, some y => decide (x + y ≤ 0) | _, _ => false)

/-- Tests whether `needle` occurs at the start of `hay`. -/
def matchesAt : List Char → List Char → Bool
  | [], _ => true
  | _ :: _, [] => false
  | a :: as, b :: bs => a = b && matchesAt as bs

/-- Tests whether `needle` occurs somewhere in `hay` (substring search, the
semantics of an un-anchored regular-expression test). -/
def hasSub (needle : List Char) : List Char → Bool
  | [] => matchesAt needle []
  | b :: bs => matchesAt needle (b :: bs) || hasSub needle bs

/-- The format check `/jpg|png|jpeg/.test(type)`: true iff `type` contains
`jpg`, `png`, or `jpeg` as a substring (the regex is not anchored). -/
def typeOk (t : String) : Bool :=
  hasSub "jpg".data t.data || hasSub "png".data t.data || hasSub "jpeg".data t.data

/-- The fields carried past validation into the decode stage. -/
structure Proceed where
  imgSrc : String
  width : Option ℚ
  height : Option ℚ
  type : String
  quality : ℚ
  fit : String
deriving DecidableEq, Repr

/-- Outcome of the synchronous validation prologue of `pictureCompress`:
either a `reject(new Error(msg))` issued before `new Image()` is
constructed, or the values the decode stage proceeds with. -/
inductive VResult where
  | reject : String → VResult
  | proceed : Proceed → VResult
deriving DecidableEq, Repr

/-- Shallow embedding of the validation prologue of
`pictureCompress(options)`: the `!options.img` guard, the default
assignments, the dimension check, and the format check, in source order.
Everything after this point requires the asynchronous image decode. -/
def validate (o : Options) : VResult :=
  if jsFalsyStr o.img then .reject "need img"
  else
    let type := effStr o.type "jpg"
    let quality := effQuality o.quality
    let fit := effStr o.fit "scale"
    if dimsInvalid o.width o.height then .reject "dist width or height need >= 0"
    else if ¬ typeOk type then .reject "type need jpg or png!"
    else .proceed ⟨o.img.getD "", o.width, o.height, type, quality, fit⟩

/-- The rejection message of a validation outcome, `none` when validation
passed. -/
def toRejectMsg : VResult → Option String
  | .reject e => some e
  | .proceed _ => none

/-! ### Helper lemmas about the geometry resolver -/

lemma scale_ne_fill : ("scale" : String) ≠ "fill" := by decide

lemma getDistSize_fill_eq (source dist : Size) (ori : Int) :
    getDistSize source dist "fill" ori =
      if ori = 6 ∨ ori = 8 then ⟨dist.height, dist.width⟩ else dist := by
  unfold getDistSize
  split <;> simp

lemma getDistSize_nonfill (source dist : Size) (fit : String) (ori : Int) (h : fit ≠ "fill") :
    getDistSize source dist fit ori =
      if ori = 6 ∨ ori = 8 then
        ⟨jsRound (source.width * scaleFor dist.width source.height dist.height source.width),
         jsRound (source.height * scaleFor dist.width source.height dist.height source.width)⟩
      else
        ⟨jsRound (source.width * scaleFor dist.width source.width dist.height source.height),
         jsRound (source.height * scaleFor dist.width source.width dist.height source.height)⟩ := by
  unfold getDistSize
  split <;> simp [h]

/-- Nonnegativity of an extended candidate value (`negInf` never arises from
nonnegative request data). -/
def JsExt.NN : JsExt → Prop
  | .negInf => False
  | .fin q => 0 ≤ q
  | .posInf => True

lemma jsCand_nn (d s : ℚ) (hd : 0 ≤ d) (hs : 0 ≤ s) : JsExt.NN (jsCand d s) := by
  unfold jsCand
  split_ifs with h1 h2 h3
  · simp [JsExt.NN]
  · simp [JsExt.NN]
  · exact absurd (lt_of_le_of_ne hd (Ne.symm h1)) h3
  · simpa [JsExt.NN] using div_nonneg hd hs

lemma jsMin3_le_one (x y : JsExt) : (jsMin (jsMin x y) (JsExt.fin 1)).toQ ≤ 1 := by
  cases x <;> cases y <;> simp [jsMin, JsExt.toQ, min_le_right]

lemma jsMin3_nonneg (x y : JsExt) (hx : JsExt.NN x) (hy : JsExt.NN y) :
    0 ≤ (jsMin (jsMin x y) (JsExt.fin 1)).toQ := by
  cases x <;> cases y <;> simp_all [jsMin, JsExt.toQ, JsExt.NN, le_min_iff]

lemma jsMin3_le_left (c : ℚ) (y : JsExt) (hy : JsExt.NN y) :
    (jsMin (jsMin (JsExt.fin c) y) (JsExt.fin 1)).toQ ≤ c := by
  cases y with
  | negInf => exact hy.elim
  | fin b =>
    simp only [jsMin, JsExt.toQ]
    exact le_trans (min_le_left _ _) (min_le_left _ _)
  | posInf =>
    simp only [jsMin, JsExt.toQ]
    exact min_le_left _ _

lemma jsMin3_le_right (x : JsExt) (c : ℚ) (hx : JsExt.NN x) :
    (jsMin (jsMin x (JsExt.fin c)) (JsExt.fin 1)).toQ ≤ c := by
  cases x with
  | negInf => exact hx.elim
  | fin a =>
    simp only [jsMin, JsExt.toQ]
    exact le_trans (min_le_left _ _) (min_le_right _ _)
  | posInf =>
    simp only [jsMin, JsExt.toQ]
    exact min_le_left _ _

lemma scaleFor_le_one (dw a dh b : ℚ) : scaleFor dw a dh b ≤ 1 := jsMin3_le_one _ _

lemma scaleFor_nonneg (dw a dh b : ℚ) (hdw : 0 ≤ dw) (ha : 0 ≤ a) (hdh : 0 ≤ dh) (hb : 0 ≤ b) :
    0 ≤ scaleFor dw a dh b :=
  jsMin3_nonneg _ _ (jsCand_nn _ _ hdw ha) (jsCand_nn _ _ hdh hb)

lemma jsCand_eq_fin_div (d s : ℚ) (hd : d ≠ 0) (hs : s ≠ 0) : jsCand d s = .fin (d / s) := by
  simp [jsCand, hd, hs]

lemma scaleFor_le_div_left (dw a dh b : ℚ) (hdw : dw ≠ 0) (ha : a ≠ 0)
    (hdh : 0 ≤ dh) (hb : 0 ≤ b) : scaleFor dw a dh b ≤ dw / a := by
  unfold scaleFor
  rw [jsCand_eq_fin_div dw a hdw ha]
  exact jsMin3_le_left _ _ (jsCand_nn _ _ hdh hb)

lemma scaleFor_le_div_right (dw a dh b : ℚ) (hdw : 0 ≤ dw) (ha : 0 ≤ a)
    (hdh : dh ≠ 0) (hb : b ≠ 0) : scaleFor dw a dh b ≤ dh / b := by
  unfold scaleFor
  rw [jsCand_eq_fin_div dh b hdh hb]
  exact jsMin3_le_right _ _ (jsCand_nn _ _ hdw ha)

lemma jsRound_nonneg (x : ℚ) (h : 0 ≤ x) : 0 ≤ jsRound x := by
  unfold jsRound
  have h2 : (0 : ℤ) ≤ ⌊x + 1 / 2⌋ := Int.floor_nonneg.2 (by linarith)
  exact_mod_cast h2

lemma jsRound_le_cast (x : ℚ) (n : ℕ) (h : x ≤ (n : ℚ)) : jsRound x ≤ (n : ℚ) := by
  unfold jsRound
  have h2 : ⌊x + 1 / 2⌋ ≤ ⌊(n : ℚ) + 1 / 2⌋ := Int.floor_le_floor (by linarith)
  have h3 : ⌊(n : ℚ) + 1 / 2⌋ = (n : ℤ) := by
    rw [show ((n : ℚ)) = (((n : ℤ) : ℚ)) by push_cast; ring, Int.floor_int_add]
    norm_num
  rw [h3] at h2
  exact_mod_cast h2

/-- Holds when `x` is an integer-valued rational. -/
def isIntQ (x : ℚ) : Prop := ((⌊x⌋ : ℤ) : ℚ) = x

lemma jsRound_isInt (x : ℚ) : isIntQ (jsRound x) := by
  unfold isIntQ jsRound
  rw [Int.floor_intCast]

/-- Modelled from the spec wording for scale mode: the candidate a
requested dimension `d` contributes against a source dimension `s` — `1`
when `d = 0` (unconstrained), else the plain quotient. -/
def specCand (d s : ℚ) : ℚ := if d = 0 then 1 else d / s

/-- Modelled from the spec wording: `scale = min(candidate_w,
candidate_h, 1)`, with the requested width compared against the source
height (and vice versa) exactly when the orientation is 6 or 8. -/
def specScaleFactor (source dist : Size) (ori : Int) : ℚ :=
  if ori = 6 ∨ ori = 8 then
    min (min (specCand dist.width source.height) (specCand dist.height source.width)) 1
  else
    min (min (specCand dist.width source.width) (specCand dist.height source.height)) 1

/-- Modelled from the spec wording: the scale-mode result
`{round(source.width × scale), round(source.height × scale)}`. -/
def specScaleResolve (source dist : Size) (ori : Int) : Size :=
  ⟨jsRound (source.width * specScaleFactor source dist ori),
   jsRound (source.height * specScaleFactor source dist ori)⟩

lemma jsCand_eq_fin_specCand (d s : ℚ) (hs : s ≠ 0) : jsCand d s = .fin (specCand d s) := by
  unfold jsCand specCand
  rw [if_neg hs]
  split <;> simp_all

lemma scaleFor_eq_spec (dw a dh b : ℚ) (ha : a ≠ 0) (hb : b ≠ 0) :
    scaleFor dw a dh b = min (min (specCand dw a) (specCand dh b)) 1 := by
  unfold scaleFor
  rw [jsCand_eq_fin_specCand dw a ha, jsCand_eq_fin_specCand dh b hb]
  simp [jsMin, JsExt.toQ]

/-! ### The claims -/

/-- C3: in scale mode `getDistSize` computes
`scale = min(candidate_w, candidate_h, 1)` with a zero requested dimension
contributing candidate `1`, comparing the requested width against the
source height (and the requested height against the source width) exactly
for orientation 6 or 8, and returns the rounded scaled source dimensions;
in particular source 800×600 with request `{width:400, height:0}` and
orientation 1 yields 400×300. -/
theorem scale_mode_formula (source dist : Size) (ori : Int)
    (hw : 0 < source.width) (hh : 0 < source.height) :
    getDistSize source dist "scale" ori = specScaleResolve source dist ori ∧
    getDistSize ⟨800, 600⟩ ⟨400, 0⟩ "scale" 1 = ⟨400, 300⟩ := by
  constructor
  · rw [getDistSize_nonfill source dist "scale" ori scale_ne_fill]
    unfold specScaleResolve specScaleFactor
    by_cases ho : ori = 6 ∨ ori = 8
    · simp only [if_pos ho]
      rw [scaleFor_eq_spec _ _ _ _ (ne_of_gt hh) (ne_of_gt hw)]
    · simp only [if_neg ho]
      rw [scaleFor_eq_spec _ _ _ _ (ne_of_gt hw) (ne_of_gt hh)]
  · simp +decide only [getDistSize, scaleFor, jsCand, jsMin, JsExt.toQ, jsRound]
    norm_num [min_def, Size.mk.injEq]

/-- Witness for C3 at source 800×600, request 400×0, orientation 1. -/
theorem scale_mode_formula_witness :
    getDistSize ⟨800, 600⟩ ⟨400, 0⟩ "scale" 1 = specScaleResolve ⟨800, 600⟩ ⟨400, 0⟩ 1 ∧
    getDistSize ⟨800, 600⟩ ⟨400, 0⟩ "scale" 1 = ⟨400, 300⟩ :=
  scale_mode_formula ⟨800, 600⟩ ⟨400, 0⟩ 1 (by norm_num) (by norm_num)

/-- C4: in fill mode `getDistSize` returns the requested dimensions
exactly, with width and height swapped if and only if the orientation code
is 6 or 8 (orientation 3 and every other code cause no swap). -/
theorem fill_mode_returns_request (source dist : Size) (ori : Int) :
    getDistSize source dist "fill" ori =
      if ori = 6 ∨ ori = 8 then ⟨dist.height, dist.width⟩ else dist :=
  getDistSize_fill_eq source dist ori

/-- C10: every fit value other than the exact string `"fill"` takes the
scale-mode path of `getDistSize`, so the result coincides with fit
`"scale"`. -/
theorem nonfill_behaves_as_scale (source dist : Size) (fit : String) (ori : Int)
    (h : fit ≠ "fill") :
    getDistSize source dist fit ori = getDistSize source dist "scale" ori := by
  rw [getDistSize_nonfill source dist fit ori h,
    getDistSize_nonfill source dist "scale" ori scale_ne_fill]

/-- Witness for C10 with the unrecognized fit string `"cover"`. -/
theorem nonfill_behaves_as_scale_witness :
    getDistSize ⟨800, 600⟩ ⟨400, 0⟩ "cover" 1 = getDistSize ⟨800, 600⟩ ⟨400, 0⟩ "scale" 1 :=
  nonfill_behaves_as_scale ⟨800, 600⟩ ⟨400, 0⟩ "cover" 1 (by decide)

lemma dimsInvalid_some_false (w h : ℚ) (hw : ¬ w < 0) (hh : ¬ h < 0) (hs : ¬ w + h ≤ 0) :
    dimsInvalid (some w) (some h) = false := by
  simp only [dimsInvalid]
  rw [decide_eq_false hw, decide_eq_false hh, decide_eq_false hs]
  rfl

/-- C8: a missing or empty image source rejects with `need img`
(MissingInput) before the decode stage begins, regardless of every other
field. -/
theorem missing_img_rejects (o : Options) (h : jsFalsyStr o.img = true) :
    validate o = .reject "need img" := by
  simp [validate, h]

/-- Witness for C8: empty image source together with otherwise-invalid
fields still rejects with the image error. -/
theorem missing_img_rejects_witness :
    validate ⟨some "", some (-5), some (-7), some "gif", some 2, some "weird"⟩ =
      VResult.reject "need img" :=
  missing_img_rejects _ (by decide)

/-- C1 counterexample: a request omitting both dimensions satisfies the
defaulted antecedent of the claim (`0 + 0 ≤ 0`), yet validation does not reject
with the dimension error — no default is applied to omitted dimensions and
the comparisons on `undefined` are all false, so the request proceeds. -/
theorem dims_default_counterexample :
    ((0 : ℚ) < 0 ∨ (0 : ℚ) < 0 ∨ (0 : ℚ) + 0 ≤ 0) ∧
    validate ⟨some "x", none, none, none, none, none⟩ ≠
      VResult.reject "dist width or height need >= 0" := by
  constructor
  · right; right; norm_num
  · have h : validate ⟨some "x", none, none, none, none, none⟩ =
        VResult.proceed ⟨"x", none, none, "jpg", 0.92, "scale"⟩ := rfl
    rw [h]
    simp

/-- C1 (amended): with a truthy image source, a request providing both
dimensions rejects with the dimension error, before any decode work, when
`width < 0`, `height < 0` or `width + height ≤ 0`; when both dimensions
are omitted no default is applied and the dimension rejection cannot
occur. -/
theorem dims_invalid_rejects (o : Options) (himg : jsFalsyStr o.img = false) :
    (∀ w h, o.width = some w → o.height = some h → (w < 0 ∨ h < 0 ∨ w + h ≤ 0) →
      validate o = .reject "dist width or height need >= 0") ∧
    (o.width = none → o.height = none →
      validate o ≠ .reject "dist width or height need >= 0") := by
  constructor
  · intro w h hw hh hbad
    have hd : dimsInvalid o.width o.height = true := by
      rw [hw, hh]
      simp only [dimsInvalid, Bool.or_eq_true, decide_eq_true_eq]
      rcases hbad with h1 | h1 | h1
      · exact Or.inl (Or.inl h1)
      · exact Or.inl (Or.inr h1)
      · exact Or.inr h1
    simp [validate, himg, hd]
  · intro hw hh hc
    have hd : dimsInvalid o.width o.height = false := by rw [hw, hh]; rfl
    by_cases ht : typeOk (effStr o.type "jpg") <;>
      simp [validate, himg, hd, ht] at hc

/-- Witness for C1 at a concrete request with provided negative width. -/
theorem dims_invalid_rejects_witness :
    validate ⟨some "x", some (-1), some 5, none, none, none⟩ =
      VResult.reject "dist width or height need >= 0" :=
  (dims_invalid_rejects ⟨some "x", some (-1), some 5, none, none, none⟩ (by decide)).1
    (-1) 5 rfl rfl (Or.inl (by norm_num))

/-- C2 counterexample: `"jpgs"` is not one of jpg, jpeg, png, yet the
un-anchored regex test accepts it and validation does not reject. -/
theorem format_substring_counterexample :
    (("jpgs" : String) ≠ "jpg" ∧ ("jpgs" : String) ≠ "jpeg" ∧ ("jpgs" : String) ≠ "png") ∧
    validate ⟨some "x", some 10, some 10, some "jpgs", none, none⟩ ≠
      VResult.reject "type need jpg or png!" := by
  refine ⟨⟨by decide, by decide, by decide⟩, ?_⟩
  have hdims : dimsInvalid (some (10 : ℚ)) (some (10 : ℚ)) = false :=
    dimsInvalid_some_false 10 10 (by norm_num) (by norm_num) (by norm_num)
  have htype : typeOk (effStr (some "jpgs") "jpg") = true := rfl
  simp [validate, jsFalsyStr, hdims, htype]

/-- C2 (amended): when the image and dimension checks pass, validation
rejects with the format error exactly when the defaulted type string
contains none of `jpg`, `png`, `jpeg` as a substring; in particular
`"gif"` rejects with the format error. -/
theorem format_rejects_iff (o : Options) (himg : jsFalsyStr o.img = false)
    (hdims : dimsInvalid o.width o.height = false) :
    validate o = .reject "type need jpg or png!" ↔ typeOk (effStr o.type "jpg") = false := by
  by_cases ht : typeOk (effStr o.type "jpg") <;> simp [validate, himg, hdims, ht]

/-- Witness for C2: the concrete gif scenario of the spec rejects with the
format error. -/
theorem format_rejects_iff_witness :
    validate ⟨some "x", some 10, some 10, some "gif", none, none⟩ =
      VResult.reject "type need jpg or png!" :=
  (format_rejects_iff ⟨some "x", some 10, some 10, some "gif", none, none⟩
    (by decide) (dimsInvalid_some_false 10 10 (by norm_num) (by norm_num) (by norm_num))).mpr
    (by decide)

/-- C9: the quality field is never validated — the rejection outcome of
validation is independent of it — and a falsy quality (explicit `0` or
omitted) is silently replaced by the default `0.92` carried into the
decode stage. -/
theorem quality_not_validated (o : Options) (q1 q2 : Option ℚ) :
    toRejectMsg (validate {o with quality := q1}) =
      toRejectMsg (validate {o with quality := q2}) ∧
    effQuality none = 0.92 ∧ effQuality (some 0) = 0.92 ∧
    (∀ p, validate o = .proceed p → p.quality = effQuality o.quality) := by
  refine ⟨?_, rfl, by simp [effQuality], ?_⟩
  · simp only [validate]
    split_ifs <;> simp [toRejectMsg]
  · intro p hp
    simp only [validate] at hp
    split_ifs at hp
    all_goals first
    | exact VResult.noConfusion hp
    | (injection hp with h; subst h; rfl)

/-- Witness for C9: explicit quality 0 proceeds with quality 0.92. -/
theorem quality_not_validated_witness :
    Proceed.quality ⟨"x", some 10, some 10, "jpg", 0.92, "scale"⟩ = effQuality (some 0) :=
  (quality_not_validated ⟨some "x", some 10, some 10, none, some 0, none⟩ none none).2.2.2
    ⟨"x", some 10, some 10, "jpg", 0.92, "scale"⟩ (by
      have hdims : dimsInvalid (some (10 : ℚ)) (some (10 : ℚ)) = false :=
        dimsInvalid_some_false 10 10 (by norm_num) (by norm_num) (by norm_num)
      have htype : typeOk "jpg" = true := rfl
      simp [validate, jsFalsyStr, hdims, htype, effStr, effQuality])

lemma jsRound_mul_scale_le_self (n : ℕ) (s : ℚ) (hs : s ≤ 1) :
    jsRound ((n : ℚ) * s) ≤ (n : ℚ) := by
  have h1 : (n : ℚ) * s ≤ (n : ℚ) := by
    calc (n : ℚ) * s ≤ (n : ℚ) * 1 := mul_le_mul_of_nonneg_left hs (by positivity)
    _ = (n : ℚ) := mul_one _
  exact jsRound_le_cast _ n h1

lemma jsRound_mul_le_div (n d : ℕ) (s : ℚ) (hle : (n : ℚ) ≠ 0 → s ≤ (d : ℚ) / (n : ℚ)) :
    jsRound ((n : ℚ) * s) ≤ (d : ℚ) := by
  by_cases hn : (n : ℚ) = 0
  · rw [hn, zero_mul]
    exact jsRound_le_cast 0 d (by positivity)
  · have h1 : (n : ℚ) * s ≤ (n : ℚ) * ((d : ℚ) / (n : ℚ)) :=
      mul_le_mul_of_nonneg_left (hle hn) (by positivity)
    rw [mul_comm ((n : ℚ)) ((d : ℚ) / (n : ℚ)), div_mul_cancel₀ _ hn] at h1
    exact jsRound_le_cast _ d h1

/-- C5 (amended to integer request dimensions): in scale mode, for natural
source dimensions and natural requested dimensions, the result never
exceeds the source dimensions on either axis, never exceeds the requested
bound on a constrained (nonzero) axis — the comparison axes being swapped
for orientation 6/8 — and the scale factor used is at most 1. -/
theorem scale_mode_bounds (sw sh dw dh : ℕ) (ori : Int) :
    ((getDistSize ⟨(sw : ℚ), (sh : ℚ)⟩ ⟨(dw : ℚ), (dh : ℚ)⟩ "scale" ori).width ≤ (sw : ℚ) ∧
     (getDistSize ⟨(sw : ℚ), (sh : ℚ)⟩ ⟨(dw : ℚ), (dh : ℚ)⟩ "scale" ori).height ≤ (sh : ℚ)) ∧
    (if ori = 6 ∨ ori = 8 then
      ((dw ≠ 0 →
        (getDistSize ⟨(sw : ℚ), (sh : ℚ)⟩ ⟨(dw : ℚ), (dh : ℚ)⟩ "scale" ori).height ≤ (dw : ℚ)) ∧
       (dh ≠ 0 →
        (getDistSize ⟨(sw : ℚ), (sh : ℚ)⟩ ⟨(dw : ℚ), (dh : ℚ)⟩ "scale" ori).width ≤ (dh : ℚ)))
     else
      ((dw ≠ 0 →
        (getDistSize ⟨(sw : ℚ), (sh : ℚ)⟩ ⟨(dw : ℚ), (dh : ℚ)⟩ "scale" ori).width ≤ (dw : ℚ)) ∧
       (dh ≠ 0 →
        (getDistSize ⟨(sw : ℚ), (sh : ℚ)⟩ ⟨(dw : ℚ), (dh : ℚ)⟩ "scale" ori).height ≤ (dh : ℚ)))) ∧
    (scaleFor (dw : ℚ) (sh : ℚ) (dh : ℚ) (sw : ℚ) ≤ 1 ∧
     scaleFor (dw : ℚ) (sw : ℚ) (dh : ℚ) (sh : ℚ) ≤ 1) := by
  rw [getDistSize_nonfill ⟨(sw : ℚ), (sh : ℚ)⟩ ⟨(dw : ℚ), (dh : ℚ)⟩ "scale" ori scale_ne_fill]
  refine ⟨?_, ?_, scaleFor_le_one _ _ _ _, scaleFor_le_one _ _ _ _⟩
  · by_cases ho : ori = 6 ∨ ori = 8 <;> simp only [if_pos, if_neg, ho, ite_true, ite_false]
    · exact ⟨jsRound_mul_scale_le_self sw _ (scaleFor_le_one _ _ _ _),
        jsRound_mul_scale_le_self sh _ (scaleFor_le_one _ _ _ _)⟩
    · exact ⟨jsRound_mul_scale_le_self sw _ (scaleFor_le_one _ _ _ _),
        jsRound_mul_scale_le_self sh _ (scaleFor_le_one _ _ _ _)⟩
  · by_cases ho : ori = 6 ∨ ori = 8 <;> simp only [if_pos, if_neg, ho, ite_true, ite_false]
    · constructor
      · intro hdw
        exact jsRound_mul_le_div sh dw _ (fun hn =>
          scaleFor_le_div_left _ _ _ _ (Nat.cast_ne_zero.2 hdw) hn (by positivity) (by positivity))
      · intro hdh
        exact jsRound_mul_le_div sw dh _ (fun hn =>
          scaleFor_le_div_right _ _ _ _ (by positivity) (by positivity) (Nat.cast_ne_zero.2 hdh) hn)
    · constructor
      · intro hdw
        exact jsRound_mul_le_div sw dw _ (fun hn =>
          scaleFor_le_div_left _ _ _ _ (Nat.cast_ne_zero.2 hdw) hn (by positivity) (by positivity))
      · intro hdh
        exact jsRound_mul_le_div sh dh _ (fun hn =>
          scaleFor_le_div_right _ _ _ _ (by positivity) (by positivity) (Nat.cast_ne_zero.2 hdh) hn)

/-- Witness for C5 at source 800×600, request 400×300, orientation 6. -/
theorem scale_mode_bounds_witness :
    ((getDistSize ⟨(800 : ℚ), (600 : ℚ)⟩ ⟨(400 : ℚ), (300 : ℚ)⟩ "scale" 6).width ≤ (800 : ℚ) ∧
     (getDistSize ⟨(800 : ℚ), (600 : ℚ)⟩ ⟨(400 : ℚ), (300 : ℚ)⟩ "scale" 6).height ≤ (600 : ℚ)) ∧
    (if (6 : Int) = 6 ∨ (6 : Int) = 8 then
      ((400 ≠ 0 →
        (getDistSize ⟨(800 : ℚ), (600 : ℚ)⟩ ⟨(400 : ℚ), (300 : ℚ)⟩ "scale" 6).height ≤ (400 : ℚ)) ∧
       (300 ≠ 0 →
        (getDistSize ⟨(800 : ℚ), (600 : ℚ)⟩ ⟨(400 : ℚ), (300 : ℚ)⟩ "scale" 6).width ≤ (300 : ℚ)))
     else
      ((400 ≠ 0 →
        (getDistSize ⟨(800 : ℚ), (600 : ℚ)⟩ ⟨(400 : ℚ), (300 : ℚ)⟩ "scale" 6).width ≤ (400 : ℚ)) ∧
       (300 ≠ 0 →
        (getDistSize ⟨(800 : ℚ), (600 : ℚ)⟩ ⟨(400 : ℚ), (300 : ℚ)⟩ "scale" 6).height ≤ (300 : ℚ)))) ∧
    (scaleFor (400 : ℚ) (600 : ℚ) (300 : ℚ) (800 : ℚ) ≤ 1 ∧
     scaleFor (400 : ℚ) (800 : ℚ) (300 : ℚ) (600 : ℚ) ≤ 1) := by
  have h := scale_mode_bounds 800 600 400 300 6
  norm_num at h ⊢
  exact h

/-- C5 counterexample: the claim quantifies over every requested size; with
the fractional requested width 13/5 (a valid JS number) the rounded result
width 3 exceeds the constrained requested width. -/
theorem scale_box_counterexample :
    ((13 / 5 : ℚ) ≠ 0) ∧
    ¬ ((getDistSize ⟨10, 10⟩ ⟨13 / 5, 0⟩ "scale" 1).width ≤ (13 / 5 : ℚ)) := by
  constructor
  · norm_num
  · rw [getDistSize_nonfill ⟨10, 10⟩ ⟨13 / 5, 0⟩ "scale" 1 scale_ne_fill]
    norm_num [scaleFor, jsCand, jsMin, JsExt.toQ, jsRound, min_def]

/-- C7 (amended): on the scale path (any fit other than `"fill"`), the
resolver output is always integral and nonnegative given a natural source
size and a nonnegative request; on the fill path the request is returned
as-is (swapped for orientation 6/8), so it is integral only when the
request itself is. -/
theorem target_dims_integral (sw sh : ℕ) (dist : Size) (fit : String) (ori : Int)
    (hw : 0 ≤ dist.width) (hh : 0 ≤ dist.height) :
    (fit ≠ "fill" →
      (isIntQ (getDistSize ⟨(sw : ℚ), (sh : ℚ)⟩ dist fit ori).width ∧
       isIntQ (getDistSize ⟨(sw : ℚ), (sh : ℚ)⟩ dist fit ori).height ∧
       0 ≤ (getDistSize ⟨(sw : ℚ), (sh : ℚ)⟩ dist fit ori).width ∧
       0 ≤ (getDistSize ⟨(sw : ℚ), (sh : ℚ)⟩ dist fit ori).height)) ∧
    getDistSize ⟨(sw : ℚ), (sh : ℚ)⟩ dist "fill" ori =
      (if ori = 6 ∨ ori = 8 then ⟨dist.height, dist.width⟩ else dist) := by
  refine ⟨?_, getDistSize_fill_eq _ _ _⟩
  intro hf
  rw [getDistSize_nonfill _ _ _ _ hf]
  by_cases ho : ori = 6 ∨ ori = 8 <;> simp only [if_pos, if_neg, ho, ite_true, ite_false]
  · exact ⟨jsRound_isInt _, jsRound_isInt _,
      jsRound_nonneg _ (mul_nonneg (by positivity)
        (scaleFor_nonneg _ _ _ _ hw (by positivity) hh (by positivity))),
      jsRound_nonneg _ (mul_nonneg (by positivity)
        (scaleFor_nonneg _ _ _ _ hw (by positivity) hh (by positivity)))⟩
  · exact ⟨jsRound_isInt _, jsRound_isInt _,
      jsRound_nonneg _ (mul_nonneg (by positivity)
        (scaleFor_nonneg _ _ _ _ hw (by positivity) hh (by positivity))),
      jsRound_nonneg _ (mul_nonneg (by positivity)
        (scaleFor_nonneg _ _ _ _ hw (by positivity) hh (by positivity)))⟩

/-- Witness for C7 at source 800×600, request 400×0, fit scale. -/
theorem target_dims_integral_witness :
    ((("scale" : String) ≠ "fill") →
      (isIntQ (getDistSize ⟨(800 : ℚ), (600 : ℚ)⟩ ⟨400, 0⟩ "scale" 1).width ∧
       isIntQ (getDistSize ⟨(800 : ℚ), (600 : ℚ)⟩ ⟨400, 0⟩ "scale" 1).height ∧
       0 ≤ (getDistSize ⟨(800 : ℚ), (600 : ℚ)⟩ ⟨400, 0⟩ "scale" 1).width ∧
       0 ≤ (getDistSize ⟨(800 : ℚ), (600 : ℚ)⟩ ⟨400, 0⟩ "scale" 1).height)) ∧
    getDistSize ⟨(800 : ℚ), (600 : ℚ)⟩ ⟨400, 0⟩ "fill" 1 =
      (if (1 : Int) = 6 ∨ (1 : Int) = 8 then ⟨(0 : ℚ), (400 : ℚ)⟩ else ⟨400, 0⟩) :=
  target_dims_integral 800 600 ⟨400, 0⟩ "scale" 1 (by norm_num) (by norm_num)

/-- C7 counterexample: in fill mode the resolver returns the request
verbatim, so the fractional request 1/2 × 1/2 yields a non-integer target
width. -/
theorem fill_integer_counterexample :
    ¬ isIntQ (getDistSize ⟨800, 600⟩ ⟨1 / 2, 1 / 2⟩ "fill" 1).width := by
  rw [getDistSize_fill_eq]
  norm_num [isIntQ]

/-- C6: at the failing input — orientation 2, a real EXIF mirror code,
with target 100×100 — the renderer issues no draw call at all (the
`switch` default only breaks), leaving the surface blank, whereas
orientation 1 draws the image at (0,0) with destination box
width × height; the fallback the claim states for unrecognized orientation
values is not what the code does. -/
theorem renderer_unrecognized_no_draw :
    (renderPlan 100 100 2).draw = none ∧
    (renderPlan 100 100 2).rotatePi = 0 ∧
    (renderPlan 100 100 1).draw = some (0, 0, 100, 100) :=
  ⟨rfl, rfl, rfl⟩
